import Mathlib

/-!
Verification of the public entry points of DiscordChatExporterPy
(`chat_exporter/chat_exporter.py`) and its constants table
(`chat_exporter/ext/discord_utils.py`), via a shallow embedding.

The `Transcript` class (`chat_exporter/construct/transcript.py`) is not part
of the visible sources; it is modelled from the specification (§4.1) where
needed, and marked as such.  Everything else is translated from the source.
-/

namespace ChatExporter

/-- A Python runtime error relevant to the entry points. -/
inductive PyError where
  | indexError
  | nameError
deriving DecidableEq, Repr

/-- `discord.Guild`: only identity matters to the entry points. -/
structure Guild where
  gid : Nat
deriving DecidableEq, Repr

/-- `discord.Client` (the `bot` argument): only identity matters here. -/
structure Bot where
  bid : Nat
deriving DecidableEq, Repr

/-- `discord.Attachment`: the entry points only read `url`. -/
structure Attachment where
  url : String
deriving DecidableEq, Repr

/-- A source `discord.Message`: timestamp (abstract tick), body text and
attachments are all the entry points and the fetch bounds touch. -/
structure Message where
  mid : Nat
  timestamp : Nat
  content : String
  attachments : List Attachment
deriving DecidableEq, Repr

/-- `discord.TextChannel`: `name` and the (re-assignable) `guild` field. -/
structure Channel where
  name : String
  guild : Guild
deriving DecidableEq, Repr

/-- `discord.Embed` as constructed by the entry points. -/
structure DEmbed where
  title : Option String
  description : String
  colour : Nat
deriving DecidableEq, Repr

/-- `discord.Colour.blurple()`. -/
def blurple : Nat := 0x5865F2

/-- `str.encode()` with the default codec: the UTF-8 bytes of the string. -/
def pyEncode (s : String) : List UInt8 := s.toUTF8.data.toList

/-- `discord.File`: payload bytes plus filename. -/
structure DFile where
  data : List UInt8
  filename : String
deriving DecidableEq, Repr

/-- The message produced by `channel.send(embed=..., file=...)`. -/
structure SentMessage where
  embeds : List DEmbed
  files : List DFile
deriving DecidableEq, Repr

/-- Modelled from the spec: the three `AttachmentHandler` variants of §4.5
(`attachment_handler.py` is not under the visible sources).  The entry points
only pass a handler through, never call it. -/
inductive AttachmentHandler where
  | passThrough
  | toLocalFileHost (directory : String)
  | toDiscordChannel (channelId : Nat)
deriving DecidableEq, Repr

/-- The keyword arguments of the `Transcript(...)` constructor, exactly as the
entry points supply them. -/
structure TranscriptConfig where
  channel : Channel
  limit : Option Nat
  messages : Option (List Message)
  pytz_timezone : String
  military_time : Option Bool
  fancy_times : Option Bool
  before : Option Nat
  after : Option Nat
  support_dev : Option Bool
  bot : Option Bot
  attachment_handler : Option AttachmentHandler

/-- Modelled from the spec: §4.1 — when fetching from a channel, apply the
`before`/`after` bounds and keep the `limit` most recent messages; the final
order is chronological (oldest → newest). -/
def applyBounds (limit : Option Nat) (before after : Option Nat)
    (history : List Message) : List Message :=
  let inBounds : Message → Bool := fun m =>
    (match before with
     | some b => decide (m.timestamp < b)
     | none => true)
    && (match after with
        | some a => decide (a < m.timestamp)
        | none => true)
  let bounded := history.filter inBounds
  match limit with
  | some n => (bounded.reverse.take n).reverse
  | none => bounded

/-- Modelled from the spec: §4.1 — `Transcript.export` (in the missing
`construct/transcript.py`) is given either an explicit pre-ordered message
list (push-based: used as-is, no fetching) or a channel handle (pull-based:
fetch with bounds).  This selects the message list the pipeline walks. -/
def Transcript.selectMessages (cfg : TranscriptConfig)
    (history : List Message) : List Message :=
  match cfg.messages with
  | some ms => ms
  | none => applyBounds cfg.limit cfg.before cfg.after history

/-- `TranscriptResult` of §3: the final HTML plus metadata; the entry points
read only `.html`. -/
structure TranscriptResult where
  html : String
deriving DecidableEq, Repr

/-- Modelled from the spec: §4.1 `build(source, options) -> TranscriptResult`.
The per-message HTML assembly (MessageAssembler/ContentFormatter, the core)
is out of the visible sources and abstracted as the `render` parameter; the
pipeline applies it to the selected message list under the configuration. -/
def Transcript.export (render : TranscriptConfig → List Message → String)
    (cfg : TranscriptConfig) (history : List Message) : TranscriptResult :=
  { html := render cfg (Transcript.selectMessages cfg history) }

/-- `if guild: channel.guild = guild` — the guild override each entry point
performs before building the pipeline (a `Guild` object is always truthy). -/
def applyGuild (channel : Channel) (guild : Option Guild) : Channel :=
  match guild with
  | some g => { channel with guild := g }
  | none => channel

/-- The `Transcript(...)` keyword arguments at `chat_exporter.py:40-53`
(`quick_export`), applied to the channel after the guild override. -/
def quick_export_config (channel : Channel) (bot : Option Bot) :
    TranscriptConfig :=
  { channel := channel
    limit := none
    messages := none
    pytz_timezone := "UTC"
    military_time := some true
    fancy_times := some true
    before := none
    after := none
    support_dev := some true
    bot := bot
    attachment_handler := none }

/-- The transcript embed of `chat_exporter.py:59-62`. -/
def quick_export_embed (channel : Channel) : DEmbed :=
  { title := none
    description := "**Transcript Name:** transcript-" ++ channel.name ++ "\n\n"
    colour := blurple }

/-- The transcript file of `chat_exporter.py:64-66`. -/
def quick_export_file (channel : Channel) (transcript : String) : DFile :=
  { data := pyEncode transcript
    filename := "transcript-" ++ channel.name ++ ".html" }

/-- `quick_export(channel, guild, bot)`.  `render` abstracts the pipeline's
HTML assembly and `history` the channel's fetchable messages (the external
message source).  Returns the channel object after the call, the messages the
call sent into the channel, and the Python return value. -/
def quick_export (render : TranscriptConfig → List Message → String)
    (history : List Message) (channel : Channel) (guild : Option Guild)
    (bot : Option Bot) : Channel × List SentMessage × Option SentMessage :=
  let channel := applyGuild channel guild
  let transcript :=
    (Transcript.export render (quick_export_config channel bot) history).html
  let m : SentMessage :=
    { embeds := [quick_export_embed channel]
      files := [quick_export_file channel transcript] }
  (channel, if transcript = "" then ([], none) else ([m], some m))

/-- The `Transcript(...)` keyword arguments at `chat_exporter.py:119-130`
(`export`), applied to the channel after the guild override. -/
def export_config (channel : Channel) (limit : Option Nat) (tz_info : String)
    (bot : Option Bot) (military_time : Option Bool)
    (fancy_times : Option Bool) (before : Option Nat) (after : Option Nat)
    (support_dev : Option Bool)
    (attachment_handler : Option AttachmentHandler) : TranscriptConfig :=
  { channel := channel
    limit := limit
    messages := none
    pytz_timezone := tz_info
    military_time := military_time
    fancy_times := fancy_times
    before := before
    after := after
    support_dev := support_dev
    bot := bot
    attachment_handler := attachment_handler }

/-- `export(channel, limit, tz_info, guild, bot, military_time, fancy_times,
before, after, support_dev, attachment_handler)`: guild override, then the
html of one pipeline invocation.  Returns the channel object after the call
and the returned HTML string.  (`export` is a Lean keyword, hence the
prime.) -/
def export' (render : TranscriptConfig → List Message → String)
    (history : List Message) (channel : Channel) (limit : Option Nat)
    (tz_info : String) (guild : Option Guild) (bot : Option Bot)
    (military_time : Option Bool) (fancy_times : Option Bool)
    (before : Option Nat) (after : Option Nat) (support_dev : Option Bool)
    (attachment_handler : Option AttachmentHandler) : Channel × String :=
  let channel := applyGuild channel guild
  (channel,
    (Transcript.export render
      (export_config channel limit tz_info bot military_time fancy_times
        before after support_dev attachment_handler) history).html)

/-- The `Transcript(...)` keyword arguments at `chat_exporter.py:178-189`
(`raw_export`): explicit message list, `limit`/`before`/`after` all `None`. -/
def raw_export_config (channel : Channel) (messages : List Message)
    (tz_info : String) (bot : Option Bot) (military_time : Option Bool)
    (fancy_times : Option Bool) (support_dev : Option Bool)
    (attachment_handler : Option AttachmentHandler) : TranscriptConfig :=
  { channel := channel
    limit := none
    messages := some messages
    pytz_timezone := tz_info
    military_time := military_time
    fancy_times := fancy_times
    before := none
    after := none
    support_dev := support_dev
    bot := bot
    attachment_handler := attachment_handler }

/-- `raw_export(channel, messages, tz_info, guild, bot, military_time,
fancy_times, support_dev, attachment_handler)`. -/
def raw_export (render : TranscriptConfig → List Message → String)
    (history : List Message) (channel : Channel) (messages : List Message)
    (tz_info : String) (guild : Option Guild) (bot : Option Bot)
    (military_time : Option Bool) (fancy_times : Option Bool)
    (support_dev : Option Bool)
    (attachment_handler : Option AttachmentHandler) : Channel × String :=
  let channel := applyGuild channel guild
  (channel,
    (Transcript.export render
      (raw_export_config channel messages tz_info bot military_time
        fancy_times support_dev attachment_handler) history).html)

/-- `quick_link(channel, guild)` at `chat_exporter.py:194-221`.  The body
builds an embed whose description reads `message.attachments[0].url`, but the
signature binds no `message` and the module defines no global of that name:
evaluating the f-string raises `NameError` on every call, before anything is
sent. -/
def quick_link (channel : Channel) (guild : Option Guild) :
    Except PyError (Channel × List SentMessage × SentMessage) :=
  let _ := applyGuild channel guild
  Except.error PyError.nameError

/-- `link(message)` at `chat_exporter.py:224-239`:
`"https://mahto.id/chat-exporter?url=" + message.attachments[0].url`.
Indexing `[0]` on an empty list raises `IndexError`. -/
def link (message : Message) : Except PyError String :=
  match message.attachments with
  | [] => Except.error PyError.indexError
  | a :: _ => Except.ok ("https://mahto.id/chat-exporter?url=" ++ a.url)

/-- The default arguments of `export` (`chat_exporter.py:70-81`). -/
def export_defaults (render : TranscriptConfig → List Message → String)
    (history : List Message) (channel : Channel) : Channel × String :=
  export' render history channel none ("UTC") none none (some true)
    (some true) none none (some true) none

/-- The default arguments of `raw_export` (`chat_exporter.py:135-144`):
`military_time` defaults to `False` here, unlike `export`. -/
def raw_export_defaults (render : TranscriptConfig → List Message → String)
    (history : List Message) (channel : Channel) (messages : List Message) :
    Channel × String :=
  raw_export render history channel messages ("UTC") none none (some false)
    (some true) (some true) none

/-- The attribute names of the `DiscordUtils` class
(`chat_exporter/ext/discord_utils.py`). -/
inductive UtilsAttr where
  | logo
  | default_avatar
  | pinned_message_icon
  | thread_channel_icon
  | thread_remove_recipient
  | thread_add_recipient
  | file_attachment_audio
  | file_attachment_acrobat
  | file_attachment_webcode
  | file_attachment_code
  | file_attachment_document
  | file_attachment_archive
  | file_attachment_unknown
  | button_external_link
  | reference_attachment_icon
  | interaction_command_icon
  | interaction_dropdown_icon
deriving DecidableEq, Repr

/-- A binding of the `DiscordUtils` attributes to strings (the class body is
a table of module-level string bindings). -/
def UtilsTable : Type := UtilsAttr → String

/-- The `DiscordUtils` constants table, verbatim from
`chat_exporter/ext/discord_utils.py`. -/
def DiscordUtils : UtilsTable := fun a =>
  match a with
  | .logo =>
      "https://cdn.jsdelivr.net/gh/mahtoid/DiscordUtils@master/discord-logo.svg"
  | .default_avatar =>
      "https://cdn.jsdelivr.net/gh/mahtoid/DiscordUtils@master/discord-default.png"
  | .pinned_message_icon =>
      "https://cdn.jsdelivr.net/gh/mahtoid/DiscordUtils@master/discord-pinned.svg"
  | .thread_channel_icon =>
      "https://cdn.jsdelivr.net/gh/mahtoid/DiscordUtils@master/discord-thread.svg"
  | .thread_remove_recipient =>
      "https://cdn.jsdelivr.net/gh/mahtoid/DiscordUtils@master/discord-thread-remove-recipient.svg"
  | .thread_add_recipient =>
      "https://cdn.jsdelivr.net/gh/mahtoid/DiscordUtils@master/discord-thread-add-recipient.svg"
  | .file_attachment_audio =>
      "https://cdn.jsdelivr.net/gh/mahtoid/DiscordUtils@master/discord-audio.svg"
  | .file_attachment_acrobat =>
      "https://cdn.jsdelivr.net/gh/mahtoid/DiscordUtils@master/discord-acrobat.svg"
  | .file_attachment_webcode =>
      "https://cdn.jsdelivr.net/gh/mahtoid/DiscordUtils@master/discord-webcode.svg"
  | .file_attachment_code =>
      "https://cdn.jsdelivr.net/gh/mahtoid/DiscordUtils@master/discord-code.svg"
  | .file_attachment_document =>
      "https://cdn.jsdelivr.net/gh/mahtoid/DiscordUtils@master/discord-document.svg"
  | .file_attachment_archive =>
      "https://cdn.jsdelivr.net/gh/mahtoid/DiscordUtils@master/discord-archive.svg"
  | .file_attachment_unknown =>
      "https://cdn.jsdelivr.net/gh/mahtoid/DiscordUtils@master/discord-unknown.svg"
  | .button_external_link =>
      "<img class=\"chatlog__reference-icon\" src=\"https://cdn.jsdelivr.net/gh/mahtoid/DiscordUtils@master/discord-external-link.svg\">"
  | .reference_attachment_icon =>
      "<img class=\"chatlog__reference-icon\" src=\"https://cdn.jsdelivr.net/gh/mahtoid/DiscordUtils@master/discord-attachment.svg\">"
  | .interaction_command_icon =>
      "<img class=\"chatlog__interaction-icon\" src=\"https://cdn.jsdelivr.net/gh/mahtoid/DiscordUtils@master/discord-command.svg\">"
  | .interaction_dropdown_icon =>
      "<img class=\"chatlog__dropdown-icon\" src=\"https://cdn.jsdelivr.net/gh/mahtoid/DiscordUtils@master/discord-dropdown.svg\">"

/-- One invocation of a public entry point, with its arguments (the channel
and the external collaborators live in the `World`). -/
inductive Op where
  | opQuickExport (guild : Option Guild) (bot : Option Bot)
  | opExport (limit : Option Nat) (tz_info : String) (guild : Option Guild)
      (bot : Option Bot) (military_time : Option Bool)
      (fancy_times : Option Bool) (before : Option Nat) (after : Option Nat)
      (support_dev : Option Bool)
      (attachment_handler : Option AttachmentHandler)
  | opRawExport (messages : List Message) (tz_info : String)
      (guild : Option Guild) (bot : Option Bot)
      (military_time : Option Bool) (fancy_times : Option Bool)
      (support_dev : Option Bool)
      (attachment_handler : Option AttachmentHandler)
  | opQuickLink (guild : Option Guild)
  | opLink (message : Message)

/-- The program state an execution threads through entry-point calls: the
channel object, the external message source, the log of messages sent into
the channel, the pipeline's renderer, and the module-level constants table. -/
structure World where
  channel : Channel
  history : List Message
  sentLog : List SentMessage
  render : TranscriptConfig → List Message → String
  utils : UtilsTable

/-- Run one entry-point call against the world. -/
def step (w : World) (op : Op) : World :=
  match op with
  | .opQuickExport guild bot =>
      let r := quick_export w.render w.history w.channel guild bot
      { w with channel := r.1, sentLog := w.sentLog ++ r.2.1 }
  | .opExport limit tz guild bot mt ft before after sd ah =>
      let r := export' w.render w.history w.channel limit tz guild bot mt ft
        before after sd ah
      { w with channel := r.1 }
  | .opRawExport messages tz guild bot mt ft sd ah =>
      let r := raw_export w.render w.history w.channel messages tz guild bot
        mt ft sd ah
      { w with channel := r.1 }
  | .opQuickLink guild =>
      match quick_link w.channel guild with
      | .ok r => { w with channel := r.1, sentLog := w.sentLog ++ r.2.1 }
      | .error _ => w
  | .opLink _ => w

/-- Run a sequence of entry-point calls. -/
def run (w : World) (ops : List Op) : World := ops.foldl step w

/-! Helper lemmas. -/

theorem applyGuild_applyGuild (channel : Channel) (guild : Option Guild) :
    applyGuild (applyGuild channel guild) guild = applyGuild channel guild := by
  cases guild <;> rfl

theorem applyGuild_name (channel : Channel) (guild : Option Guild) :
    (applyGuild channel guild).name = channel.name := by
  cases guild <;> rfl

/-- Concrete inputs for the witness theorems. -/
def sampleAttachment : Attachment := { url := "https://cdn.example/t.html" }

def sampleMessage : Message :=
  { mid := 7, timestamp := 0, content := "hi",
    attachments := [sampleAttachment] }

def sampleChannel : Channel := { name := "general", guild := { gid := 1 } }

def sampleEmptyMessage : Message :=
  { mid := 1, timestamp := 0, content := "", attachments := [] }

def sampleRender : TranscriptConfig → List Message → String := fun _ _ => "<x>"

def sampleWorld : World :=
  { channel := sampleChannel, history := [], sentLog := [],
    render := sampleRender, utils := DiscordUtils }

theorem step_preserves_utils (w : World) (op : Op) :
    (step w op).utils = w.utils := by
  cases op <;> rfl

theorem run_preserves_utils (ops : List Op) (w : World) :
    (run w ops).utils = w.utils := by
  induction ops generalizing w with
  | nil => rfl
  | cons op rest ih =>
      show (run (step w op) rest).utils = w.utils
      rw [ih (step w op), step_preserves_utils]

/-! Claim theorems. -/

/-- C1: the claim says `quick_link` takes the channel and the message and
sends a link built from the message's first attachment URL.  The code's
signature binds no message at all, and its body reads the undefined name
`message`: every call raises `NameError` and nothing is ever sent into the
channel (so the world is unchanged by the call). -/
theorem quick_link_always_raises_nameError (channel : Channel)
    (guild : Option Guild) (w : World) :
    quick_link channel guild = Except.error PyError.nameError ∧
    step w (Op.opQuickLink guild) = w := by
  exact ⟨rfl, rfl⟩

/-- C2: `quick_export` returns `none` exactly when the pipeline's HTML is
empty; otherwise it sends into the channel exactly one message, carrying one
embed and one file whose bytes are the UTF-8 encoding of the transcript HTML
under the filename `transcript-<channel name>.html`, and returns that
message's handle. -/
theorem quick_export_none_iff_empty_html
    (render : TranscriptConfig → List Message → String)
    (history : List Message) (channel : Channel) (guild : Option Guild)
    (bot : Option Bot) :
    ((quick_export render history channel guild bot).2.2 = none ↔
      (Transcript.export render
        (quick_export_config (applyGuild channel guild) bot) history).html
        = "") ∧
    ((Transcript.export render
        (quick_export_config (applyGuild channel guild) bot) history).html
        ≠ "" →
      ∃ m : SentMessage,
        quick_export render history channel guild bot =
          (applyGuild channel guild, [m], some m) ∧
        m.embeds = [quick_export_embed (applyGuild channel guild)] ∧
        m.files =
          [{ data := pyEncode
                (Transcript.export render
                  (quick_export_config (applyGuild channel guild) bot)
                  history).html
             filename := "transcript-" ++ channel.name ++ ".html" }]) := by
  constructor
  · by_cases h : (Transcript.export render
        (quick_export_config (applyGuild channel guild) bot) history).html
        = "" <;>
      simp [quick_export, h]
  · intro h
    refine ⟨{ embeds := [quick_export_embed (applyGuild channel guild)]
              files := [quick_export_file (applyGuild channel guild)
                ((Transcript.export render
                  (quick_export_config (applyGuild channel guild) bot)
                  history).html)] }, ?_, rfl, ?_⟩
    · simp [quick_export, h]
    · simp [quick_export_file, applyGuild_name]

/-- C2 witness: with a renderer that always yields `"<x>"`, the transcript is
non-empty, so a message is sent and returned. -/
theorem quick_export_none_iff_empty_html_witness :
    ∃ m : SentMessage,
      quick_export sampleRender [] sampleChannel none none =
        (applyGuild sampleChannel none, [m], some m) ∧
      m.embeds = [quick_export_embed (applyGuild sampleChannel none)] ∧
      m.files =
        [{ data := pyEncode
              (Transcript.export sampleRender
                (quick_export_config (applyGuild sampleChannel none) none)
                []).html
           filename := "transcript-" ++ sampleChannel.name ++ ".html" }] :=
  (quick_export_none_iff_empty_html sampleRender [] sampleChannel none
    none).2 (by decide)

/-- C3: `export` returns exactly the `html` field of one pipeline invocation
whose configuration carries the caller's limit, timezone, military-time flag,
fancy-times flag, before/after bounds and attachment handler unchanged (and
no explicit message list). -/
theorem export_passes_options_unchanged
    (render : TranscriptConfig → List Message → String)
    (history : List Message) (channel : Channel) (limit : Option Nat)
    (tz_info : String) (guild : Option Guild) (bot : Option Bot)
    (military_time : Option Bool) (fancy_times : Option Bool)
    (before : Option Nat) (after : Option Nat) (support_dev : Option Bool)
    (attachment_handler : Option AttachmentHandler) :
    ∃ cfg : TranscriptConfig,
      (export' render history channel limit tz_info guild bot military_time
          fancy_times before after support_dev attachment_handler).2 =
        (Transcript.export render cfg history).html ∧
      cfg.limit = limit ∧
      cfg.pytz_timezone = tz_info ∧
      cfg.military_time = military_time ∧
      cfg.fancy_times = fancy_times ∧
      cfg.before = before ∧
      cfg.after = after ∧
      cfg.attachment_handler = attachment_handler ∧
      cfg.messages = none := by
  exact ⟨export_config (applyGuild channel guild) limit tz_info bot
      military_time fancy_times before after support_dev attachment_handler,
    rfl, rfl, rfl, rfl, rfl, rfl, rfl, rfl, rfl⟩

/-- C4: `raw_export` hands the caller's message list to the pipeline
verbatim, its configuration sets no fetch bounds (`limit`, `before`, `after`
all `None`), the pipeline's selected list is exactly the supplied list in its
given order, and the result does not depend on what a channel fetch would
have returned. -/
theorem raw_export_uses_list_verbatim
    (render : TranscriptConfig → List Message → String)
    (history history' : List Message) (channel : Channel)
    (messages : List Message) (tz_info : String) (guild : Option Guild)
    (bot : Option Bot) (military_time : Option Bool)
    (fancy_times : Option Bool) (support_dev : Option Bool)
    (attachment_handler : Option AttachmentHandler) :
    Transcript.selectMessages
        (raw_export_config (applyGuild channel guild) messages tz_info bot
          military_time fancy_times support_dev attachment_handler) history
      = messages ∧
    (raw_export_config (applyGuild channel guild) messages tz_info bot
        military_time fancy_times support_dev attachment_handler).limit
      = none ∧
    (raw_export_config (applyGuild channel guild) messages tz_info bot
        military_time fancy_times support_dev attachment_handler).before
      = none ∧
    (raw_export_config (applyGuild channel guild) messages tz_info bot
        military_time fancy_times support_dev attachment_handler).after
      = none ∧
    (raw_export render history channel messages tz_info guild bot
        military_time fancy_times support_dev attachment_handler).2 =
      render
        (raw_export_config (applyGuild channel guild) messages tz_info bot
          military_time fancy_times support_dev attachment_handler)
        messages ∧
    raw_export render history channel messages tz_info guild bot
        military_time fancy_times support_dev attachment_handler =
      raw_export render history' channel messages tz_info guild bot
        military_time fancy_times support_dev attachment_handler := by
  exact ⟨rfl, rfl, rfl, rfl, rfl, rfl⟩

/-- C5: on a message whose attachment list starts with `a`, `link` returns
`"https://mahto.id/chat-exporter?url="` concatenated with `a.url`; it is a
pure function and running it as an entry-point call leaves the world (channel
and sent-message log) unchanged. -/
theorem link_returns_first_attachment_url (message : Message)
    (a : Attachment) (rest : List Attachment) (w : World)
    (h : message.attachments = a :: rest) :
    link message = Except.ok ("https://mahto.id/chat-exporter?url=" ++ a.url)
      ∧ step w (Op.opLink message) = w := by
  refine ⟨?_, rfl⟩
  unfold link
  rw [h]

/-- C5 witness: a concrete one-attachment message. -/
theorem link_returns_first_attachment_url_witness :
    link sampleMessage =
      Except.ok
        ("https://mahto.id/chat-exporter?url=" ++ sampleAttachment.url)
      ∧ step sampleWorld (Op.opLink sampleMessage) = sampleWorld :=
  link_returns_first_attachment_url sampleMessage sampleAttachment []
    sampleWorld rfl

/-- C6: the `DiscordUtils` attributes are module-level string constants that
no entry-point call writes: in any execution that starts with the table as
the source defines it, reading any attribute at any two points yields the
same string, namely the constant from the source. -/
theorem discordUtils_constant_across_execution (w : World)
    (ops1 ops2 : List Op) (a : UtilsAttr) (h : w.utils = DiscordUtils) :
    (run w ops1).utils a = (run w ops2).utils a ∧
    (run w ops1).utils a = DiscordUtils a := by
  rw [run_preserves_utils, run_preserves_utils, h]
  exact ⟨rfl, rfl⟩

/-- C6 witness: a concrete execution (one `quick_export` call) read against
the empty execution. -/
theorem discordUtils_constant_across_execution_witness :
    (run sampleWorld [Op.opQuickExport none none]).utils UtilsAttr.logo =
      (run sampleWorld []).utils UtilsAttr.logo ∧
    (run sampleWorld [Op.opQuickExport none none]).utils UtilsAttr.logo =
      DiscordUtils UtilsAttr.logo :=
  discordUtils_constant_across_execution sampleWorld
    [Op.opQuickExport none none] [] UtilsAttr.logo rfl

/-- C7: each entry point builds its pipeline configuration from its own
arguments alone — `export'` equals a fresh `Transcript.export` on the config
built from the call's arguments — and no pipeline state persists across
calls: repeating a call with identical arguments (threading the channel
object through) yields the identical result, hence an identically-configured
pipeline. -/
theorem pipeline_fresh_per_call
    (render : TranscriptConfig → List Message → String)
    (history : List Message) (channel : Channel) (limit : Option Nat)
    (tz_info : String) (guild : Option Guild) (bot : Option Bot)
    (military_time : Option Bool) (fancy_times : Option Bool)
    (before : Option Nat) (after : Option Nat) (support_dev : Option Bool)
    (attachment_handler : Option AttachmentHandler)
    (messages : List Message) :
    export' render history channel limit tz_info guild bot military_time
        fancy_times before after support_dev attachment_handler =
      (applyGuild channel guild,
        (Transcript.export render
          (export_config (applyGuild channel guild) limit tz_info bot
            military_time fancy_times before after support_dev
            attachment_handler) history).html) ∧
    export' render history
        ((export' render history channel limit tz_info guild bot
          military_time fancy_times before after support_dev
          attachment_handler).1) limit tz_info guild bot military_time
        fancy_times before after support_dev attachment_handler =
      export' render history channel limit tz_info guild bot military_time
        fancy_times before after support_dev attachment_handler ∧
    raw_export render history
        ((raw_export render history channel messages tz_info guild bot
          military_time fancy_times support_dev attachment_handler).1)
        messages tz_info guild bot military_time fancy_times support_dev
        attachment_handler =
      raw_export render history channel messages tz_info guild bot
        military_time fancy_times support_dev attachment_handler ∧
    quick_export render history
        ((quick_export render history channel guild bot).1) guild bot =
      quick_export render history channel guild bot := by
  refine ⟨rfl, ?_, ?_, ?_⟩ <;>
    simp [export', raw_export, quick_export, applyGuild_applyGuild]

/-- C8: with a non-`None` guild argument, each of `quick_export`, `export`
and `raw_export` overwrites the channel object's `guild` field with the
supplied guild (and touches nothing else of the channel), and the mutated
channel is what survives the call; with `guild = None` the channel object is
returned entirely unchanged. -/
theorem guild_override_mutation
    (render : TranscriptConfig → List Message → String)
    (history : List Message) (channel : Channel) (g : Guild)
    (limit : Option Nat) (tz_info : String) (bot : Option Bot)
    (military_time : Option Bool) (fancy_times : Option Bool)
    (before : Option Nat) (after : Option Nat) (support_dev : Option Bool)
    (attachment_handler : Option AttachmentHandler)
    (messages : List Message) :
    ((quick_export render history channel (some g) bot).1 =
        { channel with guild := g } ∧
      (export' render history channel limit tz_info (some g) bot
          military_time fancy_times before after support_dev
          attachment_handler).1 =
        { channel with guild := g } ∧
      (raw_export render history channel messages tz_info (some g) bot
          military_time fancy_times support_dev attachment_handler).1 =
        { channel with guild := g }) ∧
    ((quick_export render history channel none bot).1 = channel ∧
      (export' render history channel limit tz_info none bot military_time
          fancy_times before after support_dev attachment_handler).1 =
        channel ∧
      (raw_export render history channel messages tz_info none bot
          military_time fancy_times support_dev attachment_handler).1 =
        channel) := by
  exact ⟨⟨rfl, rfl, rfl⟩, rfl, rfl, rfl⟩

/-- C9: `link` fails with `IndexError` exactly on messages whose attachment
list is empty; whenever at least one attachment exists it returns a URL
string. -/
theorem link_indexError_iff_no_attachments (message : Message) :
    (link message = Except.error PyError.indexError ↔
      message.attachments = []) ∧
    (message.attachments ≠ [] → ∃ u, link message = Except.ok u) := by
  cases hm : message.attachments with
  | nil => simp [link, hm]
  | cons a rest => simp [link, hm]

/-- C9 witness: the attachment-free message fails with `IndexError`; the
one-attachment message returns a URL. -/
theorem link_indexError_iff_no_attachments_witness :
    link sampleEmptyMessage = Except.error PyError.indexError ∧
    ∃ u, link sampleMessage = Except.ok u :=
  ⟨(link_indexError_iff_no_attachments sampleEmptyMessage).1.mpr rfl,
    (link_indexError_iff_no_attachments sampleMessage).2 (by decide)⟩

/-- C10: with all-default options, `raw_export` configures the pipeline with
`military_time = False` while `export` configures it with
`military_time = True`; `quick_export` always configures `True`. -/
theorem military_time_default_differs
    (render : TranscriptConfig → List Message → String)
    (history : List Message) (channel : Channel) (messages : List Message)
    (guild : Option Guild) (bot : Option Bot) :
    (∃ cfg : TranscriptConfig,
        raw_export_defaults render history channel messages =
          (channel, (Transcript.export render cfg history).html) ∧
        cfg.military_time = some false) ∧
    (∃ cfg : TranscriptConfig,
        export_defaults render history channel =
          (channel, (Transcript.export render cfg history).html) ∧
        cfg.military_time = some true) ∧
    (quick_export_config (applyGuild channel guild) bot).military_time =
      some true := by
  refine ⟨⟨raw_export_config channel messages ("UTC") none (some false)
      (some true) (some true) none, rfl, rfl⟩,
    ⟨export_config channel none ("UTC") none (some true) (some true) none
      none (some true) none, rfl, rfl⟩, rfl⟩

end ChatExporter
